import Mathlib

/-!
# SNAP alignment orchestration: a shallow embedding

Lean models of two pieces of `SNAPLib`:

* `SeparatePairedEndAligner::align` (SeparatePairedEndAligner.cpp), the paired-end
  engine that aligns each mate on its own through the single-end aligner;
* `AlignerContext::parseOptions` and `AlignerContext::initialize`
  (AlignerContext.cpp), the command-line scan with its cross-field checks and
  the process-wide index cache `g_index` / `g_indexDirectory`.

Collaborators whose code lives in other translation units (the single-end
aligner, `SNAPFile::generateFromCommandLine`, `AlignerOptions::parse`,
`GenomeIndex::loadFromDirectory`, `fopen`) are parameters of the models, and the
constants `InvalidGenomeLocation` and `MAX_K` are parameters as well.
Machine integers are `Nat` / `Int`, with an explicit `% 2 ^ 32` where the C++
arithmetic is `unsigned`.
-/

namespace SNAP

/-! ## Data model -/

/-- The enum `AlignmentResult`. -/
inductive AlignmentResult where
  | NotFound
  | SingleHit
  | MultipleHits
  | UnknownAlignment
  deriving DecidableEq, Repr

/-- The enum `Direction`: `FORWARD` or reverse complement. -/
inductive Direction where
  | FORWARD
  | RC
  deriving DecidableEq, Repr

/-- A read, reduced to what `align` looks at: `getDataLength()` (an `unsigned`). -/
structure Read where
  dataLength : Nat
  deriving DecidableEq, Repr

/-- The struct `SingleAlignmentResult` as filled in by `BaseAligner::AlignRead`. -/
structure SingleAlignmentResult where
  status : AlignmentResult
  direction : Direction
  location : Nat
  score : Int
  mapq : Int
  deriving DecidableEq, Repr

/-- One mate's column of the parallel arrays `status[r]`, `direction[r]`,
`location[r]`, `score[r]`, `mapq[r]` of `PairedAlignmentResult`. -/
structure MateSlot where
  status : AlignmentResult
  direction : Direction
  location : Nat
  score : Int
  mapq : Int
  deriving DecidableEq, Repr

/-- The struct `PairedAlignmentResult`: the two mate columns and the pair-level
fields. `align` writes through a pointer, so fields it does not assign keep the
value the caller's object had. -/
structure PairedAlignmentResult where
  slot0 : MateSlot
  slot1 : MateSlot
  alignedAsPair : Bool
  fromAlignTogether : Bool
  nanosInAlignTogether : Int
  nLVCalls : Int
  nSmallHits : Int
  deriving DecidableEq, Repr

/-- Column `r` of a pair result (`r = 0` is the first mate, anything else the second). -/
def PairedAlignmentResult.slot (res : PairedAlignmentResult) (r : Nat) : MateSlot :=
  if r = 0 then res.slot0 else res.slot1

/-- Overwrite column `r` of a pair result. -/
def PairedAlignmentResult.setSlot (res : PairedAlignmentResult) (r : Nat) (s : MateSlot) :
    PairedAlignmentResult :=
  if r = 0 then { res with slot0 := s } else { res with slot1 := s }

/-- What one call of `singleAligner->AlignRead` hands back: the primary result and
the number of secondary results it wrote into the buffer it was given. -/
structure AlignReadOutput where
  result : SingleAlignmentResult
  nSecondaryResults : Int
  deriving DecidableEq, Repr

/-- The single-end aligner as an arbitrary state-passing function of its state, the
read, `maxEditDistanceForSecondaryResults` and the capacity of the secondary
buffer it receives. -/
structure SingleAligner (σ : Type) where
  AlignRead : σ → Read → Int → Int → σ × AlignReadOutput

/-- Record of one `AlignRead` call made by `align`: which mate, the buffer capacity
passed, the offset of the buffer pointer from `singleEndSecondaryResults`, and
the count the aligner reported. It wrote the entries `offset .. offset + count - 1`. -/
structure SingleCall where
  mate : Nat
  capacity : Int
  offset : Int
  count : Int
  deriving DecidableEq, Repr

/-- Everything `align` touches: the aligner, `*result`, the three out-counters, and
the locals `singleResult[]`, `tried_aligning[]`; `calls` logs the `AlignRead`
invocations and `badMapqReports` counts the diagnostic lines printed. -/
structure AlignState (σ : Type) where
  aligner : σ
  result : PairedAlignmentResult
  nSecondaryResults : Int
  nSingleEndSecondaryResultsForFirstRead : Int
  nSingleEndSecondaryResultsForSecondRead : Int
  singleResult0 : Option SingleAlignmentResult
  singleResult1 : Option SingleAlignmentResult
  tried_aligning0 : Bool
  tried_aligning1 : Bool
  calls : List SingleCall
  badMapqReports : Nat

/-- The local `singleResult[r]`, when `AlignRead` filled it in. -/
def AlignState.singleResult {σ : Type} (st : AlignState σ) (r : Nat) :
    Option SingleAlignmentResult :=
  if r = 0 then st.singleResult0 else st.singleResult1

/-- The local `tried_aligning[r]`. -/
def AlignState.tried_aligning {σ : Type} (st : AlignState σ) (r : Nat) : Bool :=
  if r = 0 then st.tried_aligning0 else st.tried_aligning1

/-- The `AlignRead` call made for mate `r`, if there was one. -/
def AlignState.callFor {σ : Type} (st : AlignState σ) (r : Nat) : Option SingleCall :=
  st.calls.find? (fun c => c.mate = r)

/-! ## `SeparatePairedEndAligner::align` -/

/-- The column written for a mate that is not aligned or not located
(lines 133-137 and 155-159): `NotFound`, mapq 0, `FORWARD`, location 0, score 0. -/
def notFoundSlot : MateSlot :=
  { status := .NotFound, direction := .FORWARD, location := 0, score := 0, mapq := 0 }

/-- The both-too-short branch (lines 109-119): location, mapq, score and status of
both columns are reset (the direction is left as it was), and the pair-level
fields are cleared. -/
def tooShortResult (res : PairedAlignmentResult) : PairedAlignmentResult :=
  { slot0 := { res.slot0 with location := 0, mapq := 0, score := 0, status := .NotFound }
    slot1 := { res.slot1 with location := 0, mapq := 0, score := 0, status := .NotFound }
    alignedAsPair := false
    fromAlignTogether := false
    nanosInAlignTogether := 0
    nLVCalls := 0
    nSmallHits := 0 }

/-- One iteration of the loop over `r` (lines 129-162). -/
def alignMate {σ : Type} (sa : SingleAligner σ) (minReadLength InvalidGenomeLocation : Nat)
    (maxEditDistanceForSecondaryResults singleSecondaryBufferSize : Int)
    (read : Read) (r : Nat) (st : AlignState σ) : AlignState σ :=
  if read.dataLength ≤ minReadLength then
    { st with result := st.result.setSlot r notFoundSlot }
  else
    let capacity := singleSecondaryBufferSize - st.nSingleEndSecondaryResultsForFirstRead
    let offset := st.nSingleEndSecondaryResultsForFirstRead
    let out := sa.AlignRead st.aligner read maxEditDistanceForSecondaryResults capacity
    let single := out.2.result
    let count := out.2.nSecondaryResults
    let slot : MateSlot :=
      if single.location ≠ InvalidGenomeLocation then
        { status := single.status, mapq := single.mapq, direction := single.direction,
          location := single.location, score := single.score }
      else notFoundSlot
    { st with
      aligner := out.1
      tried_aligning0 := if r = 0 then true else st.tried_aligning0
      tried_aligning1 := if r = 0 then st.tried_aligning1 else true
      singleResult0 := if r = 0 then some single else st.singleResult0
      singleResult1 := if r = 0 then st.singleResult1 else some single
      nSingleEndSecondaryResultsForFirstRead :=
        if r = 0 then count else st.nSingleEndSecondaryResultsForFirstRead
      nSingleEndSecondaryResultsForSecondRead :=
        if r = 0 then st.nSingleEndSecondaryResultsForSecondRead else count
      calls := st.calls ++ [{ mate := r, capacity := capacity, offset := offset, count := count }]
      result := st.result.setSlot r slot }

/-- Lines 163-170: the pair-level flags are derived from the two statuses. -/
def setPairFlags (res : PairedAlignmentResult) : PairedAlignmentResult :=
  if res.slot0.status = .NotFound ∨ res.slot1.status = .NotFound then
    { res with fromAlignTogether := false, alignedAsPair := true }
  else
    { res with fromAlignTogether := true, alignedAsPair := true }

/-- Lines 171-178: one diagnostic line per mate whose mapq exceeds 1000; nothing
else changes. -/
def countBadMapq (res : PairedAlignmentResult) : Nat :=
  (if res.slot0.mapq > 1000 then 1 else 0) + (if res.slot1.mapq > 1000 then 1 else 0)

/-- The method `SeparatePairedEndAligner::align`. `aligner0` is the state of
`singleAligner` on entry and `result0` the caller's `*result` on entry. -/
def align {σ : Type} (sa : SingleAligner σ) (minReadLength InvalidGenomeLocation : Nat)
    (aligner0 : σ) (read0 read1 : Read) (result0 : PairedAlignmentResult)
    (maxEditDistanceForSecondaryResults singleSecondaryBufferSize : Int) : AlignState σ :=
  let st0 : AlignState σ :=
    { aligner := aligner0
      result := { result0 with
        slot0 := { result0.slot0 with status := .NotFound }
        slot1 := { result0.slot1 with status := .NotFound } }
      nSecondaryResults := 0
      nSingleEndSecondaryResultsForFirstRead := 0
      nSingleEndSecondaryResultsForSecondRead := 0
      singleResult0 := none
      singleResult1 := none
      tried_aligning0 := false
      tried_aligning1 := false
      calls := []
      badMapqReports := 0 }
  if read0.dataLength < minReadLength ∧ read1.dataLength < minReadLength then
    { st0 with result := tooShortResult st0.result }
  else
    let st1 := alignMate sa minReadLength InvalidGenomeLocation
      maxEditDistanceForSecondaryResults singleSecondaryBufferSize read0 0 st0
    let st2 := alignMate sa minReadLength InvalidGenomeLocation
      maxEditDistanceForSecondaryResults singleSecondaryBufferSize read1 1 st1
    let res := setPairFlags st2.result
    { st2 with result := res, badMapqReports := countBadMapq res }

/-! ## `AlignerContext::parseOptions` -/

/-- A `SNAPFile` as far as `parseOptions` reads it: the name and `isStdio`. -/
structure SNAPFile where
  fileName : String
  isStdio : Bool
  deriving DecidableEq, Repr

/-- The fields of `AlignerOptions` that `parseOptions` and `initialize` use.
`maxDist`, `extraSearchDepth`, `maxHits`, `minReadLength` and `numThreads` are
`unsigned` in C++ (the source casts them with `(int)` where it needs a signed
value); the two secondary-alignment fields are `int`. -/
structure AlignerOptions where
  indexDir : String
  mapIndex : Bool
  prefetchIndex : Bool
  maxHits : Nat
  maxDist : Nat
  extraSearchDepth : Nat
  noUkkonen : Bool
  noOrderedEvaluation : Bool
  noTruncation : Bool
  maxSecondaryAlignmentAdditionalEditDistance : Int
  maxSecondaryAlignments : Int
  minReadLength : Nat
  perfFileName : Option String
  numThreads : Nat
  nInputs : Nat
  inputs : List SNAPFile
  deriving DecidableEq, Repr

/-- Width of `unsigned` and `int`. -/
def wordSize : Nat := 2 ^ 32

/-- Sum of two `unsigned` values as C++ computes it. -/
def uaddWrap (a b : Nat) : Nat := (a + b) % wordSize

/-- The cast `(int)x` of an `unsigned` value `x`. -/
def toInt32 (x : Nat) : Int :=
  if x % wordSize < 2 ^ 31 then ((x % wordSize : Nat) : Int)
  else ((x % wordSize : Nat) : Int) - (wordSize : Int)

/-- The messages `parseOptions` passes to `WriteErrorMessage` before it returns `NULL`. -/
inductive ParseError where
  /-- The text "Too few parameters". -/
  | tooFewParameters
  /-- The text "You may not use stdin/stdout in daemon mode". -/
  | stdioInDaemonMode
  /-- The text "You specified stdin ('-') specified for more than one input, ...". -/
  | stdinMoreThanOnce
  /-- The text "Didn't understand options starting at %s". -/
  | didntUnderstand (arg : String)
  /-- The text "No input files specified.". -/
  | noInputFiles
  /-- The text "You specified too large of a maximum edit distance combined with
  extra search depth. ...". -/
  | editDistanceTooLarge
  /-- The text "You can't have the max edit distance for secondary alignments (-om)
  be bigger than the max search depth (-D)". -/
  | secondaryEditDistanceTooLarge
  deriving DecidableEq, Repr

/-- What `parseOptions` depends on besides `argv`: the constant `MAX_K`, whether
`CommandPipe` is non-null, the options object the constructor builds (by
`paired`), and the two routines it calls.
`generateFromCommandLine args n paired` stands for
`SNAPFile::generateFromCommandLine(argv+i, argc-i, &argsConsumed, &input, paired, true)`
with `args = argv+i`, `n = argc-i`; `some (k, f)` is a `true` return with
`argsConsumed = k`, `input = f`.
`parse o argv i` stands for `options->parse(argv, argc, i, &done)`;
`some (o2, n, done)` is a `true` return that left the options as `o2`, the
by-reference index at `n`, and `done` as given. -/
structure ParseEnv where
  MAX_K : Nat
  CommandPipe : Bool
  newOptions : Bool → AlignerOptions
  generateFromCommandLine : List String → Nat → Bool → Option (Nat × SNAPFile)
  parse : AlignerOptions → List String → Nat → Option (AlignerOptions × Nat × Bool)

/-- The locals of the scanning loop: `i`, `nInputs`, the linked list `inputList`
(head first), `inputFromStdio`, and the options object. -/
structure LoopState where
  i : Nat
  nInputs : Nat
  inputList : List SNAPFile
  inputFromStdio : Bool
  options : AlignerOptions
  deriving DecidableEq, Repr

/-- How the scanning loop ends: it leaves normally, it returns `NULL` from inside,
or the model's step budget is used up. -/
inductive LoopResult where
  | finished (st : LoopState)
  | failed (e : ParseError) (st : LoopState)
  | outOfFuel
  deriving DecidableEq, Repr

/-- The loop `for (i = 2; i < argc; i++)` of lines 425-474, one iteration per unit
of fuel. -/
def parseLoop (env : ParseEnv) (argv : List String) (paired : Bool) :
    Nat → LoopState → LoopResult
  | fuel, st =>
    match argv[st.i]? with
    | none => .finished st
    | some a =>
      match fuel with
      | 0 => .outOfFuel
      | fuel + 1 =>
        if a = "," then .finished { st with i := st.i + 1 }
        else
          match env.generateFromCommandLine (argv.drop st.i) (argv.length - st.i) paired with
          | some (consumed, input) =>
            if input.isStdio ∧ env.CommandPipe then .failed .stdioInDaemonMode st
            else if input.isStdio ∧ st.inputFromStdio then .failed .stdinMoreThanOnce st
            else
              parseLoop env argv paired fuel
                { st with
                  inputFromStdio := st.inputFromStdio || input.isStdio
                  inputList := input :: st.inputList
                  nInputs := st.nInputs + 1
                  i := st.i + consumed }
          | none =>
            match env.parse st.options argv st.i with
            | none => .failed (.didntUnderstand a) st
            | some (o, n, done) =>
              if done then .finished { st with options := o, i := n + 1 }
              else parseLoop env argv paired fuel { st with options := o, i := n + 1 }

/-- The loop of lines 497-504: for `j = n-1` down to `0`, store the head of the
list at index `j` and pop it. Dereferencing an empty list gives `none`. Returns
the array and what is left of the list. -/
def fillInputs : Nat → List SNAPFile → List SNAPFile → Option (List SNAPFile × List SNAPFile)
  | 0, arr, lst => some (arr, lst)
  | j + 1, arr, lst =>
    match lst with
    | [] => none
    | x :: rest => fillInputs j (arr.set j x) rest

/-- What `parseOptions` returns: `NULL` after an error message, or the options
object together with `*argsConsumed` and the final value of the local
`inputList`; `crashed` is a null dereference in the copy loop. -/
inductive ParseResult where
  | null (e : ParseError)
  | options (o : AlignerOptions) (argsConsumed : Nat) (inputList : List SNAPFile)
  | crashed
  deriving DecidableEq, Repr

/-- The outcome of a run of `parseOptions`: its return value and the value `nInputs`
had when it returned (0 when it returned before the loop). -/
structure ParseOutcome where
  result : ParseResult
  nInputs : Nat
  deriving DecidableEq, Repr

/-- The checks and the copy after the scanning loop (lines 476-508). -/
def finishParse (env : ParseEnv) (st : LoopState) : ParseResult :=
  if st.nInputs = 0 then .null .noInputFiles
  else if uaddWrap st.options.maxDist st.options.extraSearchDepth ≥ env.MAX_K then
    .null .editDistanceTooLarge
  else if st.options.maxSecondaryAlignmentAdditionalEditDistance >
      toInt32 st.options.extraSearchDepth then
    .null .secondaryEditDistanceTooLarge
  else
    match fillInputs st.nInputs (List.replicate st.nInputs ⟨"", false⟩) st.inputList with
    | none => .crashed
    | some (arr, rest) =>
      .options { st.options with nInputs := st.nInputs, inputs := arr } st.i rest

/-- The state in which the scanning loop is entered. -/
def initialLoopState (env : ParseEnv) (argv : List String) (paired : Bool) : LoopState :=
  { i := 2
    nInputs := 0
    inputList := []
    inputFromStdio := false
    options := { env.newOptions paired with indexDir := argv.getD 1 "" } }

/-- The method `AlignerContext::parseOptions` on `argv` (with `argc = argv.length`;
`argv[0]` is the mode word and `argv[1]` the index directory). `none` means the
step budget `fuel` did not suffice for the scanning loop. -/
def parseOptions (env : ParseEnv) (argv : List String) (paired : Bool) (fuel : Nat) :
    Option ParseOutcome :=
  if argv.length < 3 then some { result := .null .tooFewParameters, nInputs := 0 }
  else
    match parseLoop env argv paired fuel (initialLoopState env argv paired) with
    | .outOfFuel => none
    | .failed e st => some { result := .null e, nInputs := st.nInputs }
    | .finished st => some { result := finishParse env st, nInputs := st.nInputs }

/-- The inputs a command line names, gathered in the order they appear by appending
each recognised input to the end of a sequence (the specification's reading of
the scan). Follows the same walk as `parseLoop`. -/
def inputsInCommandLineOrder (env : ParseEnv) (argv : List String) (paired : Bool) :
    Nat → LoopState → List SNAPFile → List SNAPFile
  | fuel, st, acc =>
    match argv[st.i]? with
    | none => acc
    | some a =>
      match fuel with
      | 0 => acc
      | fuel + 1 =>
        if a = "," then acc
        else
          match env.generateFromCommandLine (argv.drop st.i) (argv.length - st.i) paired with
          | some (consumed, input) =>
            if input.isStdio ∧ env.CommandPipe then acc
            else if input.isStdio ∧ st.inputFromStdio then acc
            else
              inputsInCommandLineOrder env argv paired fuel
                { st with
                  inputFromStdio := st.inputFromStdio || input.isStdio
                  inputList := input :: st.inputList
                  nInputs := st.nInputs + 1
                  i := st.i + consumed }
                (acc ++ [input])
          | none =>
            match env.parse st.options argv st.i with
            | none => acc
            | some (o, n, done) =>
              if done then acc
              else inputsInCommandLineOrder env argv paired fuel
                { st with options := o, i := n + 1 } acc

/-! ## `AlignerContext::initialize` and the index cache -/

/-- A loaded `GenomeIndex`, identified by `handle` (the address of the object);
`seedLength` is `getSeedLength()` and `countOfBases` is
`getGenome()->getCountOfBases()`. -/
structure GenomeIndex where
  handle : Nat
  seedLength : Int
  countOfBases : Nat
  deriving DecidableEq, Repr

/-- The file-scope variables `g_index` and `g_indexDirectory` (`none` is `NULL`),
and the static `DataSupplier::ThreadCount`. -/
structure Globals where
  g_index : Option GenomeIndex
  g_indexDirectory : Option String
  ThreadCount : Nat
  deriving DecidableEq, Repr

/-- The members of `AlignerContext` that `initialize` assigns. -/
structure AlignerContext where
  index : Option GenomeIndex
  maxHits_ : Nat
  maxDist_ : Nat
  extraSearchDepth : Nat
  noUkkonen : Bool
  noOrderedEvaluation : Bool
  noTruncation : Bool
  maxSecondaryAlignmentAdditionalEditDistance : Int
  maxSecondaryAlignments : Int
  minReadLength : Nat
  perfFile : Option Nat
  deriving DecidableEq, Repr

/-- The context as the constructor leaves the members above: `index(NULL)`,
`perfFile(NULL)`; the remaining members are not initialised by the constructor
and are given as `rest`. -/
def AlignerContext.constructed (rest : AlignerContext) : AlignerContext :=
  { rest with index := none, perfFile := none }

/-- The two system services `initialize` calls: `GenomeIndex::loadFromDirectory`
(`none` is a `NULL` return) and `fopen(name, "a")` (`none` is `NULL`, otherwise
a file handle). -/
structure InitEnv where
  loadFromDirectory : String → Bool → Bool → Option GenomeIndex
  fopen : String → Option Nat

/-- The messages `initialize` passes to `WriteErrorMessage`. -/
inductive InitError where
  /-- The text "Index load failed, aborting.". -/
  | indexLoadFailed
  /-- The text "The min read length (%d) must be at least the seed length (%d), ...". -/
  | minReadLengthBelowSeedLength
  /-- The text "Unable to open perf file '%s'". -/
  | perfFileOpenFailed
  deriving DecidableEq, Repr

/-- What a run of `initialize` leaves behind: its return value, the globals, the
context, the directories `loadFromDirectory` was invoked on (in order), whether
the seed-length comparison of line 188 was evaluated against an index, and the
error message written, if any. -/
structure InitOutcome where
  returned : Bool
  globals : Globals
  ctx : AlignerContext
  loadCalls : List String
  seedLengthChecked : Bool
  error : Option InitError
  deriving DecidableEq, Repr

/-- Lines 178-203 of `initialize`: copy the bounds, compare `minReadLength` with the
seed length when there is an index, open the perf file, set the thread count. -/
def initializeRest (env : InitEnv) (options : AlignerOptions) (g : Globals)
    (ctx : AlignerContext) (loadCalls : List String) : InitOutcome :=
  let ctx1 : AlignerContext :=
    { ctx with
      maxHits_ := options.maxHits
      maxDist_ := options.maxDist
      extraSearchDepth := options.extraSearchDepth
      noUkkonen := options.noUkkonen
      noOrderedEvaluation := options.noOrderedEvaluation
      noTruncation := options.noTruncation
      maxSecondaryAlignmentAdditionalEditDistance :=
        options.maxSecondaryAlignmentAdditionalEditDistance
      maxSecondaryAlignments := options.maxSecondaryAlignments
      minReadLength := options.minReadLength }
  let checked := ctx1.index.isSome
  match ctx1.index with
  | some idx =>
    if toInt32 ctx1.minReadLength < idx.seedLength then
      { returned := false, globals := g, ctx := ctx1, loadCalls := loadCalls,
        seedLengthChecked := checked, error := some .minReadLengthBelowSeedLength }
    else
      match options.perfFileName with
      | some name =>
        match env.fopen name with
        | none =>
          { returned := false, globals := g, ctx := { ctx1 with perfFile := none },
            loadCalls := loadCalls, seedLengthChecked := checked,
            error := some .perfFileOpenFailed }
        | some f =>
          { returned := true, globals := { g with ThreadCount := options.numThreads },
            ctx := { ctx1 with perfFile := some f }, loadCalls := loadCalls,
            seedLengthChecked := checked, error := none }
      | none =>
        { returned := true, globals := { g with ThreadCount := options.numThreads },
          ctx := ctx1, loadCalls := loadCalls, seedLengthChecked := checked, error := none }
  | none =>
    match options.perfFileName with
    | some name =>
      match env.fopen name with
      | none =>
        { returned := false, globals := g, ctx := { ctx1 with perfFile := none },
          loadCalls := loadCalls, seedLengthChecked := checked,
          error := some .perfFileOpenFailed }
      | some f =>
        { returned := true, globals := { g with ThreadCount := options.numThreads },
          ctx := { ctx1 with perfFile := some f }, loadCalls := loadCalls,
          seedLengthChecked := checked, error := none }
    | none =>
      { returned := true, globals := { g with ThreadCount := options.numThreads },
        ctx := ctx1, loadCalls := loadCalls, seedLengthChecked := checked, error := none }

/-- The method `AlignerContext::initialize`, run on the globals `g` and the context
`ctx` with `this->options = options`. -/
def initializeContext (env : InitEnv) (options : AlignerOptions) (g : Globals)
    (ctx : AlignerContext) : InitOutcome :=
  if g.g_indexDirectory = none ∨ g.g_indexDirectory ≠ some options.indexDir then
    let g1 : Globals := { g with g_index := none, g_indexDirectory := some options.indexDir }
    if options.indexDir ≠ "-" then
      match env.loadFromDirectory options.indexDir options.mapIndex options.prefetchIndex with
      | none =>
        { returned := false, globals := g1, ctx := { ctx with index := none },
          loadCalls := [options.indexDir], seedLengthChecked := false,
          error := some .indexLoadFailed }
      | some idx =>
        initializeRest env options { g1 with g_index := some idx }
          { ctx with index := some idx } [options.indexDir]
    else
      initializeRest env options g1 ctx []
  else
    initializeRest env options g { ctx with index := g.g_index } []

/-! ## `AlignerContext::printStats` -/

/-- The counters of `AlignerStats` that `printStats` reads (all `_int64`). -/
structure AlignerStats where
  totalReads : Int
  usefulReads : Int
  singleHits : Int
  multiHits : Int
  notFound : Int
  alignedAsPairs : Int
  lvCalls : Int
  deriving DecidableEq, Repr

/-- A reported percentage `100.0 * count / divisor`, kept as the two operands of the
`double` division: `count` is what `100.0` is multiplied with and `divisor` is
what the product is divided by. The rounding of the quotient is not modelled. -/
structure Percentage where
  count : Int
  divisor : Int
  deriving DecidableEq, Repr

/-- Whether the division of a reported percentage has a zero divisor. -/
def Percentage.dividesByZero (p : Percentage) : Bool :=
  decide (p.divisor = 0)

/-- The arguments of the `WriteStatusMessage` call of lines 333-342: the counts with
their percentages, the pair percentage, reads per second (an `_int64`
quotient, truncated, cast to `unsigned _int64`) and the rounded seconds. -/
structure StatsLine where
  totalReads : Int
  singleHits : Int
  singlePct : Percentage
  multiHits : Int
  multiPct : Percentage
  notFound : Int
  unalignedPct : Percentage
  tooShort : Int
  tooShortPct : Percentage
  pairedPct : Percentage
  readsPerSecond : Int
  alignTimeSeconds : Int
  deriving DecidableEq, Repr

/-- The arguments of the `fprintf(perfFile, ...)` call of lines 345-354; the last
field holds the operands of `(1000.0 * usefulReads) / max(alignTime, 1)`. -/
structure PerfLine where
  maxHits_ : Nat
  maxDist_ : Nat
  usefulPct : Percentage
  singlePct : Percentage
  multiPct : Percentage
  unalignedPct : Percentage
  lvCalls : Int
  pairedPct : Percentage
  totalReads : Int
  usefulReadsPerSecond : Int × Int
  deriving DecidableEq, Repr

/-- What `printStats` writes: the status line, and the perf-file line when
`perfFile` is not `NULL`. -/
structure StatsReport where
  status : StatsLine
  perf : Option PerfLine
  deriving DecidableEq, Repr

/-- The method `AlignerContext::printStats` (lines 322-357), on the merged `stats`,
`alignTime`, the members `maxHits_`, `maxDist_` and whether `perfFile` is open. -/
def printStats (stats : AlignerStats) (alignTime : Int) (maxHits_ maxDist_ : Nat)
    (perfFileOpen : Bool) : StatsReport :=
  let usefulReads : Int := max stats.usefulReads 1
  { status :=
      { totalReads := stats.totalReads
        singleHits := stats.singleHits
        singlePct := { count := stats.singleHits, divisor := stats.totalReads }
        multiHits := stats.multiHits
        multiPct := { count := stats.multiHits, divisor := stats.totalReads }
        notFound := stats.notFound
        unalignedPct := { count := stats.notFound, divisor := stats.totalReads }
        tooShort := stats.totalReads - stats.usefulReads
        tooShortPct :=
          { count := stats.totalReads - stats.usefulReads, divisor := max stats.totalReads 1 }
        pairedPct := { count := stats.alignedAsPairs, divisor := stats.totalReads }
        readsPerSecond := (Int.tdiv (1000 * stats.totalReads) (max alignTime 1)) % (2 ^ 64 : Int)
        alignTimeSeconds := Int.tdiv (alignTime + 500) 1000 }
    perf :=
      if perfFileOpen then
        some
          { maxHits_ := maxHits_
            maxDist_ := maxDist_
            usefulPct := { count := usefulReads, divisor := max stats.totalReads 1 }
            singlePct := { count := stats.singleHits, divisor := stats.totalReads }
            multiPct := { count := stats.multiHits, divisor := stats.totalReads }
            unalignedPct := { count := stats.notFound, divisor := stats.totalReads }
            lvCalls := stats.lvCalls
            pairedPct := { count := stats.alignedAsPairs, divisor := stats.totalReads }
            totalReads := stats.totalReads
            usefulReadsPerSecond := (1000 * usefulReads, max alignTime 1) }
      else none }

/-- Every percentage of a report, with the name of the column it fills. -/
def StatsReport.percentages (r : StatsReport) : List (String × Percentage) :=
  [("single", r.status.singlePct), ("multi", r.status.multiPct),
   ("unaligned", r.status.unalignedPct), ("tooShort", r.status.tooShortPct),
   ("paired", r.status.pairedPct)] ++
  (match r.perf with
   | none => []
   | some p =>
     [("perf useful", p.usefulPct), ("perf single", p.singlePct), ("perf multi", p.multiPct),
      ("perf unaligned", p.unalignedPct), ("perf paired", p.pairedPct)])

/-! ## Example inputs -/

/-- The mate with index `r` of the pair (`read[r]` in `align`). -/
def mateRead (read0 read1 : Read) (r : Nat) : Read :=
  if r = 0 then read0 else read1

/-- Example single-end aligner: counts its calls in its state and reports a unique
hit on the reverse strand at location `1000 + length`, with one secondary
result when the buffer has room. -/
def exampleAligner : SingleAligner Nat where
  AlignRead := fun n read _ capacity =>
    (n + 1,
      { result := { status := .SingleHit, direction := .RC, location := 1000 + read.dataLength,
                    score := 2, mapq := 60 }
        nSecondaryResults := if 1 ≤ capacity then 1 else 0 })

/-- Example contents of the caller's `*result` on entry. -/
def exampleResult : PairedAlignmentResult :=
  { slot0 := { status := .UnknownAlignment, direction := .RC, location := 7, score := 3, mapq := 5 }
    slot1 := { status := .UnknownAlignment, direction := .RC, location := 9, score := 4, mapq := 6 }
    alignedAsPair := true
    fromAlignTogether := true
    nanosInAlignTogether := 11
    nLVCalls := 12
    nSmallHits := 13 }

/-- Example value for the constant `InvalidGenomeLocation`: all ones in 32 bits. -/
def exampleInvalidGenomeLocation : Nat := 4294967295

/-- Example of C `atoi` on the digits that follow an optional sign: accumulate
decimal digits until the first other character. -/
def atoiDigits : List Char → Nat → Nat
  | [], acc => acc
  | c :: cs, acc => if c.isDigit then atoiDigits cs (10 * acc + (c.toNat - 48)) else acc

/-- Example of C `atoi`: an optional minus sign, then decimal digits. -/
def atoi (s : String) : Int :=
  match s.data with
  | '-' :: cs => - (atoiDigits cs 0 : Int)
  | cs => (atoiDigits cs 0 : Int)

/-- Storing an `int` into an `unsigned` variable. -/
def toUnsigned (x : Int) : Nat := (x % (wordSize : Int)).toNat

/-- Example options object as built by the constructor. -/
def exampleOptions : AlignerOptions :=
  { indexDir := ""
    mapIndex := false
    prefetchIndex := false
    maxHits := 300
    maxDist := 14
    extraSearchDepth := 2
    noUkkonen := false
    noOrderedEvaluation := false
    noTruncation := false
    maxSecondaryAlignmentAdditionalEditDistance := -1
    maxSecondaryAlignments := 0
    minReadLength := 50
    perfFileName := none
    numThreads := 1
    nInputs := 0
    inputs := [] }

/-- Example stand-in for `SNAPFile::generateFromCommandLine`: an argument that does
not begin with a dash names one input file and consumes one argument. -/
def exampleGenerate : List String → Nat → Bool → Option (Nat × SNAPFile)
  | [], _, _ => none
  | a :: _, _, _ =>
    match a.data with
    | '-' :: _ => none
    | _ => some (1, { fileName := a, isStdio := false })

/-- Example stand-in for `AlignerOptions::parse`: `-d`, `-D` and `-om` each take the
next argument, convert it with `atoi` and store it in `maxDist`,
`extraSearchDepth` (both `unsigned`) and
`maxSecondaryAlignmentAdditionalEditDistance` (`int`); the index is left on
the value. Anything else is not understood. -/
def exampleParse (o : AlignerOptions) (argv : List String) (i : Nat) :
    Option (AlignerOptions × Nat × Bool) :=
  match argv.drop i with
  | flag :: value :: _ =>
    if flag = "-d" then some ({ o with maxDist := toUnsigned (atoi value) }, i + 1, false)
    else if flag = "-D" then
      some ({ o with extraSearchDepth := toUnsigned (atoi value) }, i + 1, false)
    else if flag = "-om" then
      some ({ o with maxSecondaryAlignmentAdditionalEditDistance := atoi value }, i + 1, false)
    else none
  | _ => none

/-- Example environment for `parseOptions`: `MAX_K = 64`, not in daemon mode. -/
def exampleEnv : ParseEnv :=
  { MAX_K := 64
    CommandPipe := false
    newOptions := fun _ => exampleOptions
    generateFromCommandLine := exampleGenerate
    parse := exampleParse }

/-- Example loaded index: handle 1, seed length 20. -/
def exampleIndex : GenomeIndex :=
  { handle := 1, seedLength := 20, countOfBases := 3000000000 }

/-- Example environment for `initialize` in which the directory `/idx/` loads and
every other directory fails; no perf file can be opened. -/
def exampleInitEnv : InitEnv :=
  { loadFromDirectory := fun dir _ _ => if dir = "/idx/" then some exampleIndex else none
    fopen := fun _ => none }

/-- Example environment for `initialize` in which every index load fails. -/
def failingInitEnv : InitEnv :=
  { loadFromDirectory := fun _ _ _ => none
    fopen := fun _ => none }

/-- The globals at process start: `g_index = NULL`, `g_indexDirectory = NULL`. -/
def emptyGlobals : Globals :=
  { g_index := none, g_indexDirectory := none, ThreadCount := 0 }

/-- Example freshly constructed context. -/
def exampleContext : AlignerContext :=
  AlignerContext.constructed
    { index := none, maxHits_ := 0, maxDist_ := 0, extraSearchDepth := 0, noUkkonen := false,
      noOrderedEvaluation := false, noTruncation := false,
      maxSecondaryAlignmentAdditionalEditDistance := 0, maxSecondaryAlignments := 0,
      minReadLength := 0, perfFile := none }

/-- Example stats of an iteration that read nothing: every counter is 0. -/
def emptyStats : AlignerStats :=
  { totalReads := 0, usefulReads := 0, singleHits := 0, multiHits := 0, notFound := 0,
    alignedAsPairs := 0, lvCalls := 0 }

/-- Example stats of an iteration over 1000 reads. -/
def exampleStats : AlignerStats :=
  { totalReads := 1000, usefulReads := 990, singleHits := 900, multiHits := 50, notFound := 40,
    alignedAsPairs := 800, lvCalls := 123456 }

/-- The invariant every run of `initialize` keeps on the cache: a cached directory
"-" goes with a null cached index. -/
@[reducible]
def Globals.dashHasNoIndex (g : Globals) : Prop :=
  g.g_indexDirectory = some "-" → g.g_index = none


/-! ## Theorems about `SeparatePairedEndAligner::align` -/

section Align

variable {σ : Type} (sa : SingleAligner σ) (minReadLength InvalidGenomeLocation : Nat)
  (aligner0 : σ) (read0 read1 : Read) (result0 : PairedAlignmentResult)
  (maxEdit size : Int)

/-- C1, as stated, fails: with two mates of 100 bases, both located by the
single-end aligner, `align` writes `fromAlignTogether = true`. -/
theorem c1_fromAlignTogether_true_when_both_located :
    (align exampleAligner 20 exampleInvalidGenomeLocation 0 ⟨100⟩ ⟨100⟩ exampleResult 0
      8).result.fromAlignTogether = true := by
  decide

/-- C1, amended: the `fromAlignTogether` flag written by `align` is `false` exactly
when at least one mate's resulting status is `NotFound`, and it is `true`
exactly when both mates were passed to the single-end aligner and each came
back with a location other than `InvalidGenomeLocation` and a status other
than `NotFound`. -/
theorem c1_fromAlignTogether_characterised :
    ((align sa minReadLength InvalidGenomeLocation aligner0 read0 read1 result0 maxEdit
        size).result.fromAlignTogether = false ↔
      ((align sa minReadLength InvalidGenomeLocation aligner0 read0 read1 result0 maxEdit
          size).result.slot0.status = .NotFound ∨
       (align sa minReadLength InvalidGenomeLocation aligner0 read0 read1 result0 maxEdit
          size).result.slot1.status = .NotFound)) ∧
    ((align sa minReadLength InvalidGenomeLocation aligner0 read0 read1 result0 maxEdit
        size).result.fromAlignTogether = true ↔
      ∃ s0 s1,
        (align sa minReadLength InvalidGenomeLocation aligner0 read0 read1 result0 maxEdit
          size).singleResult 0 = some s0 ∧
        (align sa minReadLength InvalidGenomeLocation aligner0 read0 read1 result0 maxEdit
          size).singleResult 1 = some s1 ∧
        s0.location ≠ InvalidGenomeLocation ∧ s0.status ≠ .NotFound ∧
        s1.location ≠ InvalidGenomeLocation ∧ s1.status ≠ .NotFound) := by
  by_cases hs : read0.dataLength < minReadLength ∧ read1.dataLength < minReadLength
  · simp [align, hs, tooShortResult, AlignState.singleResult]
  · by_cases h0 : read0.dataLength ≤ minReadLength <;>
      by_cases h1 : read1.dataLength ≤ minReadLength <;>
      simp only [align, alignMate, if_neg hs, h0, h1, (by decide : ¬ ((1 : Nat) = 0)), if_true,
        if_false, setPairFlags, AlignState.singleResult, PairedAlignmentResult.setSlot,
        notFoundSlot] <;>
      split_ifs <;> first | (simp_all; done) | (simp_all; tauto)


/-- Shared: the flag is `false` exactly when one of the two resulting statuses is
`NotFound`. -/
theorem align_fromAlignTogether_false_iff :
    (align sa minReadLength InvalidGenomeLocation aligner0 read0 read1 result0 maxEdit
        size).result.fromAlignTogether = false ↔
      ((align sa minReadLength InvalidGenomeLocation aligner0 read0 read1 result0 maxEdit
          size).result.slot0.status = .NotFound ∨
       (align sa minReadLength InvalidGenomeLocation aligner0 read0 read1 result0 maxEdit
          size).result.slot1.status = .NotFound) := by
  by_cases hs : read0.dataLength < minReadLength ∧ read1.dataLength < minReadLength
  · simp [align, hs, tooShortResult]
  · simp only [align, if_neg hs, setPairFlags]
    split_ifs with h <;> simp_all

/-- C2, as stated, fails when `InvalidGenomeLocation` is not 0: a first mate of 10
bases with `minReadLength = 20` gets location 0, not `InvalidGenomeLocation`. -/
theorem c2_short_mate_location_is_not_invalid :
    (mateRead ⟨10⟩ ⟨100⟩ 0).dataLength < 20 ∧
    ¬ (((align exampleAligner 20 exampleInvalidGenomeLocation 0 ⟨10⟩ ⟨100⟩ exampleResult 0
          8).result.slot 0).status = .NotFound ∧
       ((align exampleAligner 20 exampleInvalidGenomeLocation 0 ⟨10⟩ ⟨100⟩ exampleResult 0
          8).result.slot 0).location = exampleInvalidGenomeLocation ∧
       ((align exampleAligner 20 exampleInvalidGenomeLocation 0 ⟨10⟩ ⟨100⟩ exampleResult 0
          8).result.slot 0).mapq = 0 ∧
       ((align exampleAligner 20 exampleInvalidGenomeLocation 0 ⟨10⟩ ⟨100⟩ exampleResult 0
          8).result.slot 0).score = 0) := by
  decide

/-- C2, amended: for each mate `r` whose data length is less than `minReadLength`,
the result slot of that mate has status `NotFound`, location 0, mapq 0 and
score 0, in the both-short early return as well as when only one mate is
short; the location equals `InvalidGenomeLocation` only if that constant is 0. -/
theorem c2_short_mate_slot (r : Nat) (hr : r < 2)
    (hshort : (mateRead read0 read1 r).dataLength < minReadLength) :
    ((align sa minReadLength InvalidGenomeLocation aligner0 read0 read1 result0 maxEdit
        size).result.slot r).status = .NotFound ∧
    ((align sa minReadLength InvalidGenomeLocation aligner0 read0 read1 result0 maxEdit
        size).result.slot r).location = 0 ∧
    ((align sa minReadLength InvalidGenomeLocation aligner0 read0 read1 result0 maxEdit
        size).result.slot r).mapq = 0 ∧
    ((align sa minReadLength InvalidGenomeLocation aligner0 read0 read1 result0 maxEdit
        size).result.slot r).score = 0 ∧
    (((align sa minReadLength InvalidGenomeLocation aligner0 read0 read1 result0 maxEdit
        size).result.slot r).location = InvalidGenomeLocation ↔ InvalidGenomeLocation = 0) := by
  have hr01 : r = 0 ∨ r = 1 := by omega
  have h10 : ¬ ((1 : Nat) = 0) := by decide
  by_cases hs : read0.dataLength < minReadLength ∧ read1.dataLength < minReadLength
  · rcases hr01 with rfl | rfl <;>
      simp [align, hs, tooShortResult, PairedAlignmentResult.slot, eq_comm]
  · rcases hr01 with rfl | rfl
    · have h0 : read0.dataLength ≤ minReadLength := by
        simp only [mateRead, if_true] at hshort; omega
      by_cases h1 : read1.dataLength ≤ minReadLength <;>
        simp only [align, alignMate, if_neg hs, h0, h1, h10, if_true, if_false, setPairFlags,
          PairedAlignmentResult.setSlot, PairedAlignmentResult.slot, notFoundSlot] <;>
        split_ifs <;> simp [eq_comm]
    · have h1 : read1.dataLength ≤ minReadLength := by
        simp [mateRead] at hshort; omega
      by_cases h0 : read0.dataLength ≤ minReadLength <;>
        simp only [align, alignMate, if_neg hs, h0, h1, h10, if_true, if_false, setPairFlags,
          PairedAlignmentResult.setSlot, PairedAlignmentResult.slot, notFoundSlot] <;>
        split_ifs <;> simp [eq_comm]

/-- Witness for C2 (amended): first mate of 10 bases, `minReadLength = 20`. -/
theorem c2_short_mate_slot_witness :
    ((align exampleAligner 20 exampleInvalidGenomeLocation 0 ⟨10⟩ ⟨100⟩ exampleResult 0
        8).result.slot 0).status = .NotFound ∧
    ((align exampleAligner 20 exampleInvalidGenomeLocation 0 ⟨10⟩ ⟨100⟩ exampleResult 0
        8).result.slot 0).location = 0 ∧
    ((align exampleAligner 20 exampleInvalidGenomeLocation 0 ⟨10⟩ ⟨100⟩ exampleResult 0
        8).result.slot 0).mapq = 0 ∧
    ((align exampleAligner 20 exampleInvalidGenomeLocation 0 ⟨10⟩ ⟨100⟩ exampleResult 0
        8).result.slot 0).score = 0 ∧
    (((align exampleAligner 20 exampleInvalidGenomeLocation 0 ⟨10⟩ ⟨100⟩ exampleResult 0
        8).result.slot 0).location = exampleInvalidGenomeLocation ↔
      exampleInvalidGenomeLocation = 0) :=
  c2_short_mate_slot exampleAligner 20 exampleInvalidGenomeLocation 0 ⟨10⟩ ⟨100⟩ exampleResult 0 8
    0 (by decide) (by decide)

/-- C3: in every result produced by `align`, `fromAlignTogether = true` implies that
neither `status[0]` nor `status[1]` is `NotFound`; equivalently, if either
status is `NotFound` then `fromAlignTogether = false`. -/
theorem c3_fromAlignTogether_implies_both_found :
    ((align sa minReadLength InvalidGenomeLocation aligner0 read0 read1 result0 maxEdit
        size).result.fromAlignTogether = true →
      (align sa minReadLength InvalidGenomeLocation aligner0 read0 read1 result0 maxEdit
          size).result.slot0.status ≠ .NotFound ∧
      (align sa minReadLength InvalidGenomeLocation aligner0 read0 read1 result0 maxEdit
          size).result.slot1.status ≠ .NotFound) ∧
    (((align sa minReadLength InvalidGenomeLocation aligner0 read0 read1 result0 maxEdit
          size).result.slot0.status = .NotFound ∨
      (align sa minReadLength InvalidGenomeLocation aligner0 read0 read1 result0 maxEdit
          size).result.slot1.status = .NotFound) →
      (align sa minReadLength InvalidGenomeLocation aligner0 read0 read1 result0 maxEdit
        size).result.fromAlignTogether = false) := by
  have key := align_fromAlignTogether_false_iff sa minReadLength InvalidGenomeLocation aligner0
    read0 read1 result0 maxEdit size
  constructor
  · intro h
    constructor
    · intro h0
      rw [key.mpr (Or.inl h0)] at h
      exact Bool.noConfusion h
    · intro h1
      rw [key.mpr (Or.inr h1)] at h
      exact Bool.noConfusion h
  · exact key.mpr

/-- Witness for C3: two located mates give `fromAlignTogether = true` with both
statuses `SingleHit`; a too-short first mate gives `NotFound` and the flag `false`. -/
theorem c3_fromAlignTogether_implies_both_found_witness :
    ((align exampleAligner 20 exampleInvalidGenomeLocation 0 ⟨100⟩ ⟨100⟩ exampleResult 0
        8).result.slot0.status ≠ .NotFound ∧
     (align exampleAligner 20 exampleInvalidGenomeLocation 0 ⟨100⟩ ⟨100⟩ exampleResult 0
        8).result.slot1.status ≠ .NotFound) ∧
    (align exampleAligner 20 exampleInvalidGenomeLocation 0 ⟨10⟩ ⟨100⟩ exampleResult 0
        8).result.fromAlignTogether = false :=
  ⟨(c3_fromAlignTogether_implies_both_found exampleAligner 20 exampleInvalidGenomeLocation 0
      ⟨100⟩ ⟨100⟩ exampleResult 0 8).1 (by decide),
   (c3_fromAlignTogether_implies_both_found exampleAligner 20 exampleInvalidGenomeLocation 0
      ⟨10⟩ ⟨100⟩ exampleResult 0 8).2 (Or.inl (by decide))⟩


/-- C4: for each mate `r` that was passed to the single-end aligner and whose
single-end result `s` has a location other than `InvalidGenomeLocation`, slot
`r` of the pair result equals `s` field for field: status, direction,
location, score, and mapq (exactly the single-end mapq). -/
theorem c4_located_mate_copied (r : Nat) (hr : r < 2) (s : SingleAlignmentResult)
    (htried : (align sa minReadLength InvalidGenomeLocation aligner0 read0 read1 result0
      maxEdit size).tried_aligning r = true)
    (hsingle : (align sa minReadLength InvalidGenomeLocation aligner0 read0 read1 result0
      maxEdit size).singleResult r = some s)
    (hloc : s.location ≠ InvalidGenomeLocation) :
    ((align sa minReadLength InvalidGenomeLocation aligner0 read0 read1 result0 maxEdit
        size).result.slot r).status = s.status ∧
    ((align sa minReadLength InvalidGenomeLocation aligner0 read0 read1 result0 maxEdit
        size).result.slot r).direction = s.direction ∧
    ((align sa minReadLength InvalidGenomeLocation aligner0 read0 read1 result0 maxEdit
        size).result.slot r).location = s.location ∧
    ((align sa minReadLength InvalidGenomeLocation aligner0 read0 read1 result0 maxEdit
        size).result.slot r).score = s.score ∧
    ((align sa minReadLength InvalidGenomeLocation aligner0 read0 read1 result0 maxEdit
        size).result.slot r).mapq = s.mapq := by
  have hr01 : r = 0 ∨ r = 1 := by omega
  have h10 : ¬ ((1 : Nat) = 0) := by decide
  have _ := htried
  by_cases hs : read0.dataLength < minReadLength ∧ read1.dataLength < minReadLength
  · rcases hr01 with rfl | rfl <;>
      simp [align, hs, AlignState.singleResult] at hsingle
  · rcases hr01 with rfl | rfl <;>
      by_cases h0 : read0.dataLength ≤ minReadLength <;>
      by_cases h1 : read1.dataLength ≤ minReadLength <;>
      simp only [align, alignMate, if_neg hs, h0, h1, h10, if_true, if_false, setPairFlags,
        AlignState.singleResult, PairedAlignmentResult.setSlot, PairedAlignmentResult.slot,
        notFoundSlot, Option.some.injEq, reduceCtorEq] at hsingle ⊢ <;>
      first
        | exact hsingle.elim
        | (subst hsingle
           split_ifs <;> simp_all)

/-- Witness for C4: the second mate (100 bases) of a pair whose first mate is too
short is located at 1100 with mapq 60, and its slot carries exactly that. -/
theorem c4_located_mate_copied_witness :
    ((align exampleAligner 20 exampleInvalidGenomeLocation 0 ⟨10⟩ ⟨100⟩ exampleResult 0
        8).result.slot 1).status = AlignmentResult.SingleHit ∧
    ((align exampleAligner 20 exampleInvalidGenomeLocation 0 ⟨10⟩ ⟨100⟩ exampleResult 0
        8).result.slot 1).direction = Direction.RC ∧
    ((align exampleAligner 20 exampleInvalidGenomeLocation 0 ⟨10⟩ ⟨100⟩ exampleResult 0
        8).result.slot 1).location = 1100 ∧
    ((align exampleAligner 20 exampleInvalidGenomeLocation 0 ⟨10⟩ ⟨100⟩ exampleResult 0
        8).result.slot 1).score = 2 ∧
    ((align exampleAligner 20 exampleInvalidGenomeLocation 0 ⟨10⟩ ⟨100⟩ exampleResult 0
        8).result.slot 1).mapq = 60 :=
  c4_located_mate_copied exampleAligner 20 exampleInvalidGenomeLocation 0 ⟨10⟩ ⟨100⟩
    exampleResult 0 8 1 (by decide)
    { status := .SingleHit, direction := .RC, location := 1100, score := 2, mapq := 60 }
    (by decide) (by decide) (by decide)


/-- C10: the two mates' single-end secondary results are packed contiguously. The
call for the first mate gets offset 0 and capacity `singleSecondaryBufferSize`;
the call for the second mate gets the offset
`*nSingleEndSecondaryResultsForFirstRead` and the capacity reduced by that
count; each reported count is the count of the corresponding call. Hence, for
a buffer size that is not negative and calls that each return a count between
0 and the capacity given, the two counts are non-negative, sum to at most
`singleSecondaryBufferSize`, and the range written for the first mate ends
where the range for the second begins. `*nSecondaryResults` is always 0. -/
theorem c10_secondary_results_packed (hsize : 0 ≤ size)
    (hcalls : ∀ c ∈ (align sa minReadLength InvalidGenomeLocation aligner0 read0 read1 result0
      maxEdit size).calls, 0 ≤ c.count ∧ c.count ≤ c.capacity) :
    (align sa minReadLength InvalidGenomeLocation aligner0 read0 read1 result0 maxEdit
        size).nSecondaryResults = 0 ∧
    (∀ c, (align sa minReadLength InvalidGenomeLocation aligner0 read0 read1 result0 maxEdit
        size).callFor 0 = some c →
      c.offset = 0 ∧ c.capacity = size ∧
      c.count = (align sa minReadLength InvalidGenomeLocation aligner0 read0 read1 result0
        maxEdit size).nSingleEndSecondaryResultsForFirstRead) ∧
    (∀ c, (align sa minReadLength InvalidGenomeLocation aligner0 read0 read1 result0 maxEdit
        size).callFor 1 = some c →
      c.offset = (align sa minReadLength InvalidGenomeLocation aligner0 read0 read1 result0
        maxEdit size).nSingleEndSecondaryResultsForFirstRead ∧
      c.capacity = size - (align sa minReadLength InvalidGenomeLocation aligner0 read0 read1
        result0 maxEdit size).nSingleEndSecondaryResultsForFirstRead ∧
      c.count = (align sa minReadLength InvalidGenomeLocation aligner0 read0 read1 result0
        maxEdit size).nSingleEndSecondaryResultsForSecondRead) ∧
    0 ≤ (align sa minReadLength InvalidGenomeLocation aligner0 read0 read1 result0 maxEdit
        size).nSingleEndSecondaryResultsForFirstRead ∧
    0 ≤ (align sa minReadLength InvalidGenomeLocation aligner0 read0 read1 result0 maxEdit
        size).nSingleEndSecondaryResultsForSecondRead ∧
    (align sa minReadLength InvalidGenomeLocation aligner0 read0 read1 result0 maxEdit
        size).nSingleEndSecondaryResultsForFirstRead +
      (align sa minReadLength InvalidGenomeLocation aligner0 read0 read1 result0 maxEdit
        size).nSingleEndSecondaryResultsForSecondRead ≤ size ∧
    (∀ c0 c1,
      (align sa minReadLength InvalidGenomeLocation aligner0 read0 read1 result0 maxEdit
        size).callFor 0 = some c0 →
      (align sa minReadLength InvalidGenomeLocation aligner0 read0 read1 result0 maxEdit
        size).callFor 1 = some c1 →
      c0.offset + c0.count ≤ c1.offset) := by
  have h10 : ¬ ((1 : Nat) = 0) := by decide
  by_cases hs : read0.dataLength < minReadLength ∧ read1.dataLength < minReadLength
  · simp [align, hs, AlignState.callFor, hsize]
  · by_cases h0 : read0.dataLength ≤ minReadLength <;>
      by_cases h1 : read1.dataLength ≤ minReadLength <;>
      simp only [align, alignMate, if_neg hs, h0, h1, h10, if_true, if_false,
        AlignState.callFor, List.nil_append, List.cons_append, List.mem_cons,
        List.mem_singleton, List.not_mem_nil, or_false, forall_eq_or_imp, forall_eq,
        List.find?, decide_eq_true_eq, decide_True, decide_False, Option.some.injEq,
        reduceCtorEq, sub_zero, false_implies, implies_true, true_and, and_true]
        at hcalls ⊢ <;>
      first
        | (simp_all; omega)
        | simp_all

/-- Witness for C10: two mates of 100 bases, buffer of 8; the example aligner
writes one secondary result per mate, at offsets 0 and 1. -/
theorem c10_secondary_results_packed_witness :
    (align exampleAligner 20 exampleInvalidGenomeLocation 0 ⟨100⟩ ⟨100⟩ exampleResult 0
        8).calls =
      [{ mate := 0, capacity := 8, offset := 0, count := 1 },
       { mate := 1, capacity := 7, offset := 1, count := 1 }] ∧
    (align exampleAligner 20 exampleInvalidGenomeLocation 0 ⟨100⟩ ⟨100⟩ exampleResult 0
        8).nSingleEndSecondaryResultsForFirstRead +
      (align exampleAligner 20 exampleInvalidGenomeLocation 0 ⟨100⟩ ⟨100⟩ exampleResult 0
        8).nSingleEndSecondaryResultsForSecondRead ≤ 8 :=
  ⟨by decide,
   (c10_secondary_results_packed exampleAligner 20 exampleInvalidGenomeLocation 0 ⟨100⟩ ⟨100⟩
      exampleResult 0 8 (by decide) (by decide)).2.2.2.2.2.1⟩

end Align

/-! ## Theorems about `AlignerContext::parseOptions` -/

/-- Shared: filling the array from index `lst.length - 1` down to 0 while popping the
list writes the list reversed over the first `lst.length` cells, leaves the
other cells alone and empties the list. -/
theorem fillInputs_eq (lst : List SNAPFile) :
    ∀ arr : List SNAPFile, lst.length ≤ arr.length →
      fillInputs lst.length arr lst = some (lst.reverse ++ arr.drop lst.length, []) := by
  induction lst with
  | nil => intro arr _; simp [fillInputs]
  | cons x rest ih =>
    intro arr harr
    have hlt : rest.length < arr.length := by
      simp only [List.length_cons] at harr; omega
    simp only [List.length_cons, fillInputs]
    rw [ih (arr.set rest.length x) (by simp; omega)]
    have hdrop : (arr.set rest.length x).drop rest.length = x :: arr.drop (rest.length + 1) := by
      rw [List.set_eq_take_append_cons_drop, if_pos hlt]
      rw [List.drop_append_of_le_length (by simp; omega)]
      have : (List.take rest.length arr).length = rest.length := by simp; omega
      rw [List.drop_eq_nil_of_le (by omega)]
      rfl
    rw [hdrop]
    simp

/-- Shared: the array a fresh `new SNAPFile[n]` is filled into is exactly the list
reversed when `n` is the length of the list. -/
theorem fillInputs_replicate (lst : List SNAPFile) (d : SNAPFile) :
    fillInputs lst.length (List.replicate lst.length d) lst = some (lst.reverse, []) := by
  rw [fillInputs_eq lst _ (by simp)]
  simp

/-- Shared: the scanning loop keeps `inputList` equal to the inputs recognised so
far in reverse, and `nInputs` equal to their number. -/
theorem parseLoop_inputList (env : ParseEnv) (argv : List String) (paired : Bool) :
    ∀ (fuel : Nat) (st st2 : LoopState) (acc : List SNAPFile),
      st.inputList = acc.reverse → st.nInputs = acc.length →
      parseLoop env argv paired fuel st = .finished st2 →
      st2.inputList = (inputsInCommandLineOrder env argv paired fuel st acc).reverse ∧
      st2.nInputs = (inputsInCommandLineOrder env argv paired fuel st acc).length := by
  intro fuel
  induction fuel with
  | zero =>
    intro st st2 acc hl hn h
    unfold parseLoop at h
    unfold inputsInCommandLineOrder
    cases hget : argv[st.i]? with
    | none =>
      simp only [hget] at h ⊢
      cases h
      exact ⟨hl, hn⟩
    | some a => simp [hget] at h
  | succ fuel ih =>
    intro st st2 acc hl hn h
    unfold parseLoop at h
    unfold inputsInCommandLineOrder
    cases hget : argv[st.i]? with
    | none =>
      simp only [hget] at h ⊢
      cases h
      exact ⟨hl, hn⟩
    | some a =>
      simp only [hget] at h ⊢
      by_cases hcomma : a = ","
      · simp only [hcomma, if_true] at h ⊢
        cases h
        exact ⟨hl, hn⟩
      · simp only [hcomma, if_false] at h ⊢
        cases hgen : env.generateFromCommandLine (argv.drop st.i) (argv.length - st.i) paired with
        | some p =>
          obtain ⟨consumed, input⟩ := p
          simp only [hgen] at h ⊢
          by_cases h1 : input.isStdio = true ∧ env.CommandPipe = true
          · simp [h1] at h
          · simp only [h1, if_false] at h ⊢
            by_cases h2 : input.isStdio = true ∧ st.inputFromStdio = true
            · simp [h2] at h
            · simp only [h2, if_false] at h ⊢
              exact ih _ st2 (acc ++ [input]) (by simp [hl]) (by simp [hn]) h
        | none =>
          simp only [hgen] at h ⊢
          cases hp : env.parse st.options argv st.i with
          | none => simp [hp] at h
          | some q =>
            obtain ⟨o, n, done⟩ := q
            simp only [hp] at h ⊢
            by_cases hd : done = true
            · simp only [hd, if_true] at h ⊢
              cases h
              exact ⟨hl, hn⟩
            · simp only [hd] at h ⊢
              exact ih _ st2 acc hl hn h

/-- Shared: when every recognised input consumes at least one argument and the
option parser never moves the index backwards, `argv.length - i` iterations
are enough for the scanning loop to end. -/
theorem parseLoop_terminates (env : ParseEnv) (argv : List String) (paired : Bool)
    (hgen : ∀ args n p k f, env.generateFromCommandLine args n p = some (k, f) → 1 ≤ k)
    (hparse : ∀ o i o2 n d, env.parse o argv i = some (o2, n, d) → i ≤ n) :
    ∀ (fuel : Nat) (st : LoopState), argv.length - st.i ≤ fuel →
      parseLoop env argv paired fuel st ≠ .outOfFuel := by
  intro fuel
  induction fuel with
  | zero =>
    intro st hf
    unfold parseLoop
    have : argv[st.i]? = none := by
      rw [List.getElem?_eq_none_iff]; omega
    simp [this]
  | succ fuel ih =>
    intro st hf
    unfold parseLoop
    cases hget : argv[st.i]? with
    | none => simp
    | some a =>
      simp only []
      by_cases hcomma : a = ","
      · simp [hcomma]
      · simp only [hcomma, if_false]
        cases hg : env.generateFromCommandLine (argv.drop st.i) (argv.length - st.i) paired with
        | some p =>
          obtain ⟨consumed, input⟩ := p
          simp only []
          have hk := hgen _ _ _ _ _ hg
          split_ifs
          · simp
          · simp
          · exact ih _ (by simp only []; omega)
        | none =>
          simp only []
          cases hp : env.parse st.options argv st.i with
          | none => simp
          | some q =>
            obtain ⟨o, n, done⟩ := q
            simp only []
            have hn := hparse _ _ _ _ _ hp
            split_ifs
            · simp
            · exact ih _ (by simp only []; omega)

/-- Shared: what a successful `parseOptions` does guarantee about the two bounds:
the sum as computed in `unsigned` arithmetic is below `MAX_K`, and the
secondary edit distance is at most `(int)extraSearchDepth`. -/
theorem parseOptions_success_bounds (env : ParseEnv) (argv : List String) (paired : Bool)
    (fuel : Nat) (o : AlignerOptions) (n : Nat) (rest : List SNAPFile) (k : Nat)
    (h : parseOptions env argv paired fuel = some ⟨.options o n rest, k⟩) :
    uaddWrap o.maxDist o.extraSearchDepth < env.MAX_K ∧
    o.maxSecondaryAlignmentAdditionalEditDistance ≤ toInt32 o.extraSearchDepth := by
  unfold parseOptions at h
  split_ifs at h with hlen
  · simp at h
  · split at h
    · simp at h
    · simp at h
    · rename_i st hloop
      simp only [Option.some.injEq, ParseOutcome.mk.injEq] at h
      obtain ⟨hres, -⟩ := h
      unfold finishParse at hres
      split_ifs at hres with h0 h1 h2
      split at hres
      · simp at hres
      · simp only [ParseResult.options.injEq] at hres
        obtain ⟨ho, -, -⟩ := hres
        subst ho
        simp only []
        omega

/-- C5, evaluated at the failing input `single /idx/ reads.fq -d 2 -D -1`: the
option values held are `maxDist = 2` and `extraSearchDepth = 4294967295`, their
sum is not below `MAX_K = 64`, and `parseOptions` returns the options object. -/
theorem c5_wrapped_sum_is_accepted :
    parseOptions exampleEnv ["single", "/idx/", "reads.fq", "-d", "2", "-D", "-1"] false 7 =
      some
        { result := .options
            { exampleOptions with
              indexDir := "/idx/"
              maxDist := 2
              extraSearchDepth := 4294967295
              nInputs := 1
              inputs := [{ fileName := "reads.fq", isStdio := false }] }
            7 []
          nInputs := 1 } ∧
    ¬ ((2 : Nat) + 4294967295 < exampleEnv.MAX_K) := by
  decide

/-- C6, as stated, fails: for the two-token command line `single /idx/` the error
reported is "Too few parameters", not "No input files specified". -/
theorem c6_two_tokens_report_too_few_parameters :
    parseOptions exampleEnv ["single", "/idx/"] false 2 =
      some { result := .null .tooFewParameters, nInputs := 0 } ∧
    ParseError.tooFewParameters ≠ ParseError.noInputFiles := by
  decide

/-- C6, amended: when every recognised input consumes at least one argument and the
option parser never moves the index backwards, `parseOptions` returns, and
whenever it returns with zero input files counted it returns `NULL`. The error
is "Too few parameters" when `argc < 3` (as for `single /idx/`); for
`argc >= 3` it is "No input files specified." when the scanning loop ran
through, and otherwise the error raised inside the loop. -/
theorem c6_zero_inputs_return_null (env : ParseEnv) (argv : List String) (paired : Bool)
    (fuel : Nat)
    (hgen : ∀ args n p k f, env.generateFromCommandLine args n p = some (k, f) → 1 ≤ k)
    (hparse : ∀ o i o2 n d, env.parse o argv i = some (o2, n, d) → i ≤ n)
    (hfuel : argv.length ≤ fuel) :
    ∃ out, parseOptions env argv paired fuel = some out ∧
      (out.nInputs = 0 →
        ∃ e, out.result = .null e ∧
          (argv.length < 3 → e = .tooFewParameters) ∧
          (3 ≤ argv.length → ∀ st,
            parseLoop env argv paired fuel (initialLoopState env argv paired) = .finished st →
            e = .noInputFiles) ∧
          (3 ≤ argv.length → ∀ e2 st,
            parseLoop env argv paired fuel (initialLoopState env argv paired) = .failed e2 st →
            e = e2)) := by
  unfold parseOptions
  by_cases hlen : argv.length < 3
  · rw [if_pos hlen]
    refine ⟨_, rfl, fun _ => ⟨_, rfl, fun _ => rfl, ?_, ?_⟩⟩
    · intro h3; omega
    · intro h3; omega
  · rw [if_neg hlen]
    have hterm := parseLoop_terminates env argv paired hgen hparse fuel
      (initialLoopState env argv paired) (by omega)
    cases hloop : parseLoop env argv paired fuel (initialLoopState env argv paired) with
    | outOfFuel => exact absurd hloop hterm
    | failed e st =>
      refine ⟨_, rfl, fun _ => ⟨e, rfl, fun h => absurd h hlen, ?_, ?_⟩⟩
      · intro _ st2 h2; cases h2
      · intro _ e2 st2 h2; cases h2; rfl
    | finished st =>
      refine ⟨_, rfl, fun h0 => ⟨.noInputFiles, ?_, fun h => absurd h hlen, ?_, ?_⟩⟩
      · simp only [] at h0
        simp [finishParse, h0]
      · intro _ st2 _; rfl
      · intro _ e2 st2 h2; cases h2

/-- Shared: the example input recogniser consumes one argument per input. -/
theorem exampleGenerate_consumes (args : List String) (n : Nat) (p : Bool) (k : Nat)
    (f : SNAPFile) (h : exampleEnv.generateFromCommandLine args n p = some (k, f)) : 1 ≤ k := by
  simp only [exampleEnv] at h
  unfold exampleGenerate at h
  split at h
  · simp at h
  · split at h
    · simp at h
    · simp only [Option.some.injEq, Prod.mk.injEq] at h
      omega

/-- Shared: the example option parser leaves the index on the option's value. -/
theorem exampleParse_advances (argv : List String) (o : AlignerOptions) (i : Nat)
    (o2 : AlignerOptions) (n : Nat) (d : Bool)
    (h : exampleEnv.parse o argv i = some (o2, n, d)) : i ≤ n := by
  simp only [exampleEnv] at h
  unfold exampleParse at h
  split at h
  · split_ifs at h <;> simp only [Option.some.injEq, Prod.mk.injEq] at h <;> omega
  · simp at h

/-- Witness for C6 (amended): `single /idx/ -d 60` names no input; the scan ends and
the error is "No input files specified.". -/
theorem c6_zero_inputs_return_null_witness :
    parseOptions exampleEnv ["single", "/idx/", "-d", "60"] false 4 =
      some { result := .null .noInputFiles, nInputs := 0 } ∧
    ∃ out, parseOptions exampleEnv ["single", "/idx/", "-d", "60"] false 4 = some out ∧
      (out.nInputs = 0 →
        ∃ e, out.result = .null e ∧
          (["single", "/idx/", "-d", "60"].length < 3 → e = .tooFewParameters) ∧
          (3 ≤ ["single", "/idx/", "-d", "60"].length → ∀ st,
            parseLoop exampleEnv ["single", "/idx/", "-d", "60"] false 4
              (initialLoopState exampleEnv ["single", "/idx/", "-d", "60"] false) =
                .finished st →
            e = .noInputFiles) ∧
          (3 ≤ ["single", "/idx/", "-d", "60"].length → ∀ e2 st,
            parseLoop exampleEnv ["single", "/idx/", "-d", "60"] false 4
              (initialLoopState exampleEnv ["single", "/idx/", "-d", "60"] false) =
                .failed e2 st →
            e = e2)) :=
  ⟨by decide,
   c6_zero_inputs_return_null exampleEnv ["single", "/idx/", "-d", "60"] false 4
     exampleGenerate_consumes (exampleParse_advances _) (by decide)⟩

/-- Shared: once the scanning loop has ended normally, `nInputs` is the length of
the linked list, so the copy loop never dereferences an empty list and
`finishParse` does not crash. -/
theorem finishParse_of_finished (env : ParseEnv) (argv : List String) (paired : Bool)
    (fuel : Nat) (st : LoopState)
    (hloop : parseLoop env argv paired fuel (initialLoopState env argv paired) = .finished st) :
    st.inputList.reverse =
      inputsInCommandLineOrder env argv paired fuel (initialLoopState env argv paired) [] ∧
    st.nInputs = st.inputList.length ∧
    fillInputs st.nInputs (List.replicate st.nInputs ⟨"", false⟩) st.inputList =
      some (st.inputList.reverse, []) ∧
    finishParse env st ≠ .crashed := by
  obtain ⟨hlist, hcount⟩ := parseLoop_inputList env argv paired fuel
    (initialLoopState env argv paired) st [] rfl rfl hloop
  have hlen : st.nInputs = st.inputList.length := by
    rw [hcount, hlist, List.length_reverse]
  have hfill : fillInputs st.nInputs (List.replicate st.nInputs ⟨"", false⟩) st.inputList =
      some (st.inputList.reverse, []) := by
    rw [hlen, fillInputs_replicate]
  refine ⟨by rw [hlist, List.reverse_reverse], hlen, hfill, ?_⟩
  unfold finishParse
  rw [hfill]
  split_ifs <;> simp

/-- C7: `parseOptions` produces the inputs in command-line order.
(1) Pushing each input of any list on the front of the linked list and then
filling the array from index `nInputs - 1` down to 0 yields the original
order and leaves the list empty.
(2) Whenever the scanning loop ends normally with at least one input and both
bounds checks pass, `parseOptions` returns the options object, with
`options->nInputs` the number of inputs recognised on the command line,
`options->inputs` those inputs in command-line order, and an empty temporary
list.
(3) Whenever `parseOptions` returns an options object, `nInputs`, `inputs`
(so `inputs[j]` for every `j`) and the temporary list are as in (2).
(4) When the scan makes progress and has enough steps, `parseOptions` returns,
and never by a null dereference in the copy loop. -/
theorem c7_inputs_in_command_line_order (env : ParseEnv) (argv : List String) (paired : Bool)
    (fuel : Nat) :
    (∀ inputs : List SNAPFile,
      fillInputs inputs.length (List.replicate inputs.length ⟨"", false⟩)
        (inputs.foldl (fun l x => x :: l) []) = some (inputs, [])) ∧
    (∀ st : LoopState, 3 ≤ argv.length →
      parseLoop env argv paired fuel (initialLoopState env argv paired) = .finished st →
      st.nInputs ≠ 0 →
      uaddWrap st.options.maxDist st.options.extraSearchDepth < env.MAX_K →
      st.options.maxSecondaryAlignmentAdditionalEditDistance ≤
        toInt32 st.options.extraSearchDepth →
      parseOptions env argv paired fuel =
        some
          { result := .options
              { st.options with
                nInputs := (inputsInCommandLineOrder env argv paired fuel
                  (initialLoopState env argv paired) []).length
                inputs := inputsInCommandLineOrder env argv paired fuel
                  (initialLoopState env argv paired) [] }
              st.i []
            nInputs := (inputsInCommandLineOrder env argv paired fuel
              (initialLoopState env argv paired) []).length }) ∧
    (∀ (o : AlignerOptions) (n : Nat) (rest : List SNAPFile) (k : Nat),
      parseOptions env argv paired fuel = some ⟨.options o n rest, k⟩ →
      o.nInputs =
        (inputsInCommandLineOrder env argv paired fuel (initialLoopState env argv paired)
          []).length ∧
      o.inputs =
        inputsInCommandLineOrder env argv paired fuel (initialLoopState env argv paired) [] ∧
      (∀ j : Nat, o.inputs[j]? =
        (inputsInCommandLineOrder env argv paired fuel (initialLoopState env argv paired)
          [])[j]?) ∧
      rest = []) ∧
    ((∀ args n p k f, env.generateFromCommandLine args n p = some (k, f) → 1 ≤ k) →
      (∀ o i o2 n d, env.parse o argv i = some (o2, n, d) → i ≤ n) →
      argv.length ≤ fuel →
      ∃ out, parseOptions env argv paired fuel = some out ∧ out.result ≠ .crashed) := by
  refine ⟨?_, ?_, ?_, ?_⟩
  · intro inputs
    have hrev : inputs.foldl (fun l x => x :: l) [] = inputs.reverse := by
      have hgen : ∀ (xs acc : List SNAPFile),
          xs.foldl (fun l x => x :: l) acc = xs.reverse ++ acc := by
        intro xs
        induction xs with
        | nil => intro acc; rfl
        | cons x xs ih => intro acc; simp [List.foldl, ih]
      rw [hgen inputs [], List.append_nil]
    rw [hrev]
    have h := fillInputs_replicate inputs.reverse ⟨"", false⟩
    rw [List.length_reverse, List.reverse_reverse] at h
    exact h
  · intro st h3 hloop hn hsum hsec
    obtain ⟨hlist, hlen, hfill, -⟩ := finishParse_of_finished env argv paired fuel st hloop
    have hnot : ¬ argv.length < 3 := by omega
    have hcount : st.nInputs = (inputsInCommandLineOrder env argv paired fuel
        (initialLoopState env argv paired) []).length := by
      rw [← hlist, List.length_reverse, hlen]
    unfold parseOptions
    rw [if_neg hnot, hloop]
    simp only []
    unfold finishParse
    rw [if_neg hn, if_neg (by omega : ¬ uaddWrap st.options.maxDist st.options.extraSearchDepth ≥
      env.MAX_K), if_neg (by omega : ¬ st.options.maxSecondaryAlignmentAdditionalEditDistance >
      toInt32 st.options.extraSearchDepth), hfill]
    simp only []
    rw [hlist, ← hcount]
  · intro o n rest k h
    unfold parseOptions at h
    split_ifs at h with hlen
    · simp at h
    · split at h
      · simp at h
      · simp at h
      · rename_i st hloop
        obtain ⟨hlist, hlen2, hfill, -⟩ := finishParse_of_finished env argv paired fuel st hloop
        simp only [Option.some.injEq, ParseOutcome.mk.injEq] at h
        obtain ⟨hres, -⟩ := h
        unfold finishParse at hres
        rw [hfill] at hres
        split_ifs at hres with h0 h1 h2
        simp only [ParseResult.options.injEq] at hres
        obtain ⟨ho, -, hrest⟩ := hres
        subst ho
        refine ⟨?_, hlist, ?_, hrest.symm⟩
        · simp only []
          rw [← hlist, List.length_reverse, hlen2]
        · intro j
          simp only []
          rw [hlist]
  · intro hgen hparse hfuel
    unfold parseOptions
    by_cases hlen : argv.length < 3
    · rw [if_pos hlen]
      exact ⟨_, rfl, by simp⟩
    · rw [if_neg hlen]
      have hterm := parseLoop_terminates env argv paired hgen hparse fuel
        (initialLoopState env argv paired) (by omega)
      cases hloop : parseLoop env argv paired fuel (initialLoopState env argv paired) with
      | outOfFuel => exact absurd hloop hterm
      | failed e st => exact ⟨_, rfl, by simp⟩
      | finished st =>
        exact ⟨_, rfl, (finishParse_of_finished env argv paired fuel st hloop).2.2.2⟩

/-- Witness for C7: on `single /idx/ a.fq b.fq -d 2 c.fq` the scanning loop ends at
index 7 with three inputs, and `parseOptions` returns the options object with
`nInputs = 3`, `inputs = [a.fq, b.fq, c.fq]` and an empty temporary list. -/
theorem c7_inputs_in_command_line_order_witness :
    parseOptions exampleEnv ["single", "/idx/", "a.fq", "b.fq", "-d", "2", "c.fq"] false 7 =
      some
        { result := .options
            { exampleOptions with
              indexDir := "/idx/"
              maxDist := 2
              nInputs := 3
              inputs := [{ fileName := "a.fq", isStdio := false },
                         { fileName := "b.fq", isStdio := false },
                         { fileName := "c.fq", isStdio := false }] }
            7 []
          nInputs := 3 } :=
  ((c7_inputs_in_command_line_order exampleEnv
      ["single", "/idx/", "a.fq", "b.fq", "-d", "2", "c.fq"] false 7).2.1
    { i := 7
      nInputs := 3
      inputList := [{ fileName := "c.fq", isStdio := false },
                    { fileName := "b.fq", isStdio := false },
                    { fileName := "a.fq", isStdio := false }]
      inputFromStdio := false
      options := { exampleOptions with indexDir := "/idx/", maxDist := 2 } }
    (by decide) (by decide) (by decide) (by decide) (by decide)).trans (by decide)

/-! ## Theorems about `AlignerContext::initialize` -/

/-- Shared: the tail of `initialize` leaves the context's index, the cached index and
the cached directory as they are and adds no index load. -/
theorem initializeRest_preserves (env : InitEnv) (options : AlignerOptions) (g : Globals)
    (ctx : AlignerContext) (loadCalls : List String) :
    (initializeRest env options g ctx loadCalls).ctx.index = ctx.index ∧
    (initializeRest env options g ctx loadCalls).globals.g_index = g.g_index ∧
    (initializeRest env options g ctx loadCalls).globals.g_indexDirectory =
      g.g_indexDirectory ∧
    (initializeRest env options g ctx loadCalls).loadCalls = loadCalls := by
  unfold initializeRest
  simp only []
  cases ctx.index with
  | none =>
    simp only []
    cases options.perfFileName with
    | none => simp
    | some name =>
      simp only []
      cases env.fopen name <;> simp
  | some idx =>
    simp only []
    split_ifs
    · simp
    · cases options.perfFileName with
      | none => simp
      | some name =>
        simp only []
        cases env.fopen name <;> simp

/-- Shared: after any run of `initialize` the cached directory is the requested one. -/
theorem initializeContext_caches_directory (env : InitEnv) (options : AlignerOptions)
    (g : Globals) (ctx : AlignerContext) :
    (initializeContext env options g ctx).globals.g_indexDirectory = some options.indexDir := by
  unfold initializeContext
  split_ifs with hmiss hdash
  · cases env.loadFromDirectory options.indexDir options.mapIndex options.prefetchIndex with
    | none => rfl
    | some idx => simp only []; rw [(initializeRest_preserves _ _ _ _ _).2.2.1]
  · rw [(initializeRest_preserves _ _ _ _ _).2.2.1]
  · rw [(initializeRest_preserves _ _ _ _ _).2.2.1]
    by_contra hne
    exact hmiss (Or.inr hne)

/-- Shared: on a cache hit `initialize` loads nothing and takes the cached index. -/
theorem initializeContext_hit (env : InitEnv) (options : AlignerOptions)
    (g : Globals) (ctx : AlignerContext) (hhit : g.g_indexDirectory = some options.indexDir) :
    (initializeContext env options g ctx).loadCalls = [] ∧
    (initializeContext env options g ctx).ctx.index = g.g_index := by
  unfold initializeContext
  have hno : ¬ (g.g_indexDirectory = none ∨ g.g_indexDirectory ≠ some options.indexDir) := by
    rw [hhit]; simp
  rw [if_neg hno]
  exact ⟨(initializeRest_preserves _ _ _ _ _).2.2.2, (initializeRest_preserves _ _ _ _ _).1⟩

/-- Shared: after a run of `initialize` on a context whose index was `NULL` if the
directory is "-", the context's index is the cached index. -/
theorem initializeContext_index_eq_cache (env : InitEnv) (options : AlignerOptions)
    (g : Globals) (ctx : AlignerContext) (hfresh : options.indexDir = "-" → ctx.index = none) :
    (initializeContext env options g ctx).ctx.index =
      (initializeContext env options g ctx).globals.g_index := by
  unfold initializeContext
  split_ifs with hmiss hdash
  · cases env.loadFromDirectory options.indexDir options.mapIndex options.prefetchIndex with
    | none => rfl
    | some idx =>
      simp only []
      rw [(initializeRest_preserves _ _ _ _ _).1, (initializeRest_preserves _ _ _ _ _).2.1]
  · rw [(initializeRest_preserves _ _ _ _ _).1, (initializeRest_preserves _ _ _ _ _).2.1]
    exact hfresh (not_not.mp hdash)
  · rw [(initializeRest_preserves _ _ _ _ _).1, (initializeRest_preserves _ _ _ _ _).2.1]

/-- C8: IndexCache idempotence. When `initialize` is run twice in succession with the
same `options->indexDir` (the first run on a context whose index is still
`NULL` if the directory is "-", as the constructor leaves it), the second run
does not invoke `GenomeIndex::loadFromDirectory`, and the context's index
after the second run is the handle the first run obtained. -/
theorem c8_second_initialize_reuses_index (env1 env2 : InitEnv)
    (options1 options2 : AlignerOptions) (g : Globals) (ctx1 ctx2 : AlignerContext)
    (hdir : options2.indexDir = options1.indexDir)
    (hfresh : options1.indexDir = "-" → ctx1.index = none) :
    (initializeContext env2 options2 (initializeContext env1 options1 g ctx1).globals
        ctx2).loadCalls = [] ∧
    (initializeContext env2 options2 (initializeContext env1 options1 g ctx1).globals
        ctx2).ctx.index = (initializeContext env1 options1 g ctx1).ctx.index := by
  have hkey := initializeContext_caches_directory env1 options1 g ctx1
  rw [← hdir] at hkey
  have hhit := initializeContext_hit env2 options2 _ ctx2 hkey
  exact ⟨hhit.1, hhit.2.trans (initializeContext_index_eq_cache env1 options1 g ctx1 hfresh).symm⟩

/-- Witness for C8: two runs on `/idx/` from an empty cache; the first loads the
index, the second loads nothing and ends with the same handle. -/
theorem c8_second_initialize_reuses_index_witness :
    (initializeContext exampleInitEnv { exampleOptions with indexDir := "/idx/" } emptyGlobals
        exampleContext).loadCalls = ["/idx/"] ∧
    (initializeContext exampleInitEnv { exampleOptions with indexDir := "/idx/" } emptyGlobals
        exampleContext).ctx.index = some exampleIndex ∧
    (initializeContext exampleInitEnv { exampleOptions with indexDir := "/idx/" }
        (initializeContext exampleInitEnv { exampleOptions with indexDir := "/idx/" }
          emptyGlobals exampleContext).globals exampleContext).loadCalls = [] ∧
    (initializeContext exampleInitEnv { exampleOptions with indexDir := "/idx/" }
        (initializeContext exampleInitEnv { exampleOptions with indexDir := "/idx/" }
          emptyGlobals exampleContext).globals exampleContext).ctx.index =
      (initializeContext exampleInitEnv { exampleOptions with indexDir := "/idx/" } emptyGlobals
        exampleContext).ctx.index :=
  ⟨by decide, by decide,
   c8_second_initialize_reuses_index exampleInitEnv exampleInitEnv
     { exampleOptions with indexDir := "/idx/" } { exampleOptions with indexDir := "/idx/" }
     emptyGlobals exampleContext exampleContext rfl (by decide)⟩

/-- C9, evaluated at the failing input (empty cache, directory `/idx/`, load
fails): `initialize` returns `false` but leaves `g_indexDirectory = "/idx/"`
with `g_index = NULL`; a second `initialize` with `/idx/` then takes the
cache-hit branch, does not call `loadFromDirectory`, leaves the context's
index `NULL` and returns `true`. -/
theorem c9_failed_load_leaves_directory_cached :
    (initializeContext failingInitEnv { exampleOptions with indexDir := "/idx/" } emptyGlobals
        exampleContext).returned = false ∧
    (initializeContext failingInitEnv { exampleOptions with indexDir := "/idx/" } emptyGlobals
        exampleContext).error = some .indexLoadFailed ∧
    (initializeContext failingInitEnv { exampleOptions with indexDir := "/idx/" } emptyGlobals
        exampleContext).globals.g_index = none ∧
    (initializeContext failingInitEnv { exampleOptions with indexDir := "/idx/" } emptyGlobals
        exampleContext).globals.g_indexDirectory = some "/idx/" ∧
    (initializeContext failingInitEnv { exampleOptions with indexDir := "/idx/" }
        (initializeContext failingInitEnv { exampleOptions with indexDir := "/idx/" }
          emptyGlobals exampleContext).globals exampleContext).loadCalls = [] ∧
    (initializeContext failingInitEnv { exampleOptions with indexDir := "/idx/" }
        (initializeContext failingInitEnv { exampleOptions with indexDir := "/idx/" }
          emptyGlobals exampleContext).globals exampleContext).ctx.index = none ∧
    (initializeContext failingInitEnv { exampleOptions with indexDir := "/idx/" }
        (initializeContext failingInitEnv { exampleOptions with indexDir := "/idx/" }
          emptyGlobals exampleContext).globals exampleContext).returned = true := by
  decide

/-! ## Theorems about `AlignerContext::printStats` -/

/-- Shared: the divisor of each reported percentage, for every stats value. Only the
too-short column and the perf-file useful column divide by `max(totalReads, 1)`;
the other eight divide by `totalReads` itself. -/
theorem printStats_divisors (stats : AlignerStats) (alignTime : Int) (maxHits_ maxDist_ : Nat) :
    (printStats stats alignTime maxHits_ maxDist_ true).percentages.map
        (fun p => (p.1, p.2.divisor)) =
      [("single", stats.totalReads), ("multi", stats.totalReads),
       ("unaligned", stats.totalReads), ("tooShort", max stats.totalReads 1),
       ("paired", stats.totalReads), ("perf useful", max stats.totalReads 1),
       ("perf single", stats.totalReads), ("perf multi", stats.totalReads),
       ("perf unaligned", stats.totalReads), ("perf paired", stats.totalReads)] := by
  simp [printStats, StatsReport.percentages]

/-- C11, evaluated at the failing input (all counters 0, perf file open): the
divisor `max(totalReads, 1)` would be 1, and the too-short and perf-file useful
percentages do divide by 1, but the single, multi, unaligned and paired
percentages of both lines divide by `totalReads = 0`. -/
theorem c11_percentages_divide_by_zero_total :
    max emptyStats.totalReads 1 = 1 ∧
    (printStats emptyStats 0 300 14 true).percentages.map (fun p => (p.1, p.2.divisor)) =
      [("single", 0), ("multi", 0), ("unaligned", 0), ("tooShort", 1), ("paired", 0),
       ("perf useful", 1), ("perf single", 0), ("perf multi", 0), ("perf unaligned", 0),
       ("perf paired", 0)] ∧
    (printStats emptyStats 0 300 14 true).status.singlePct.dividesByZero = true ∧
    (printStats emptyStats 0 300 14 true).status.tooShortPct.dividesByZero = false := by
  decide

/-! ## Further theorems about `AlignerContext::initialize` -/

/-- Shared: every run of `initialize` keeps the cache invariant that a cached
directory "-" goes with a null cached index; the globals at process start
satisfy it. -/
theorem initializeContext_keeps_dashHasNoIndex (env : InitEnv) (options : AlignerOptions)
    (g : Globals) (ctx : AlignerContext) (hg : g.dashHasNoIndex) :
    (initializeContext env options g ctx).globals.dashHasNoIndex ∧ emptyGlobals.dashHasNoIndex := by
  refine ⟨?_, fun h => rfl⟩
  unfold Globals.dashHasNoIndex at hg ⊢
  unfold initializeContext
  split_ifs with hmiss hdash
  · cases env.loadFromDirectory options.indexDir options.mapIndex options.prefetchIndex with
    | none => intro _; rfl
    | some idx =>
      simp only []
      rw [(initializeRest_preserves _ _ _ _ _).2.1, (initializeRest_preserves _ _ _ _ _).2.2.1]
      intro h
      simp only [Option.some.injEq] at h
      exact absurd h hdash
  · rw [(initializeRest_preserves _ _ _ _ _).2.1, (initializeRest_preserves _ _ _ _ _).2.2.1]
    intro _; rfl
  · rw [(initializeRest_preserves _ _ _ _ _).2.1, (initializeRest_preserves _ _ _ _ _).2.2.1]
    exact hg

/-- Shared: the tail of `initialize` evaluates the seed-length comparison against an
index exactly when the context's index is not `NULL`. -/
theorem initializeRest_seedLengthChecked (env : InitEnv) (options : AlignerOptions)
    (g : Globals) (ctx : AlignerContext) (loadCalls : List String) :
    (initializeRest env options g ctx loadCalls).seedLengthChecked = ctx.index.isSome := by
  unfold initializeRest
  simp only []
  cases ctx.index with
  | none =>
    simp only []
    cases options.perfFileName with
    | none => simp
    | some name =>
      simp only []
      cases env.fopen name <;> simp
  | some idx =>
    simp only []
    split_ifs
    · simp
    · cases options.perfFileName with
      | none => simp
      | some name =>
        simp only []
        cases env.fopen name <;> simp

/-- C12, as stated, fails for a context that is not fresh: after a context has
loaded `/idx/`, running `initialize` on it with the directory "-" loads
nothing but leaves the context's index at the old handle, and the seed-length
comparison is evaluated against it. -/
theorem c12_dash_keeps_stale_index :
    (initializeContext exampleInitEnv { exampleOptions with indexDir := "-" }
        (initializeContext exampleInitEnv { exampleOptions with indexDir := "/idx/" }
          emptyGlobals exampleContext).globals
        (initializeContext exampleInitEnv { exampleOptions with indexDir := "/idx/" }
          emptyGlobals exampleContext).ctx).loadCalls = [] ∧
    (initializeContext exampleInitEnv { exampleOptions with indexDir := "-" }
        (initializeContext exampleInitEnv { exampleOptions with indexDir := "/idx/" }
          emptyGlobals exampleContext).globals
        (initializeContext exampleInitEnv { exampleOptions with indexDir := "/idx/" }
          emptyGlobals exampleContext).ctx).ctx.index = some exampleIndex ∧
    (initializeContext exampleInitEnv { exampleOptions with indexDir := "-" }
        (initializeContext exampleInitEnv { exampleOptions with indexDir := "/idx/" }
          emptyGlobals exampleContext).globals
        (initializeContext exampleInitEnv { exampleOptions with indexDir := "/idx/" }
          emptyGlobals exampleContext).ctx).seedLengthChecked = true := by
  decide

/-- C12, amended: for the directory literal "-", `initialize` never invokes
`GenomeIndex::loadFromDirectory`, for every prior state of the cache and of
the context; and when the context's index is `NULL` on entry (as the
constructor leaves it) and the cache does not pair the key "-" with an index
(as every run of `initialize` leaves it), the context's index is `NULL`
afterwards and the seed-length validation is skipped. -/
theorem c12_dash_leaves_index_null (env : InitEnv) (options : AlignerOptions) (g : Globals)
    (ctx : AlignerContext) (hdash : options.indexDir = "-") :
    (initializeContext env options g ctx).loadCalls = [] ∧
    (ctx.index = none → g.dashHasNoIndex →
      (initializeContext env options g ctx).ctx.index = none ∧
      (initializeContext env options g ctx).seedLengthChecked = false) := by
  unfold initializeContext
  split_ifs with hmiss hnot
  · exact absurd hdash hnot
  · refine ⟨(initializeRest_preserves _ _ _ _ _).2.2.2, fun hctx _ => ?_⟩
    rw [(initializeRest_preserves _ _ _ _ _).1, initializeRest_seedLengthChecked, hctx]
    exact ⟨rfl, rfl⟩
  · refine ⟨(initializeRest_preserves _ _ _ _ _).2.2.2, fun _ hcache => ?_⟩
    have hkey : g.g_indexDirectory = some "-" := by
      by_contra hne
      rw [hdash] at hmiss
      exact hmiss (Or.inr hne)
    rw [(initializeRest_preserves _ _ _ _ _).1, initializeRest_seedLengthChecked]
    simp only []
    rw [hcache hkey]
    exact ⟨rfl, rfl⟩

/-- Witness for C12 (amended): a fresh context and the empty cache, directory "-". -/
theorem c12_dash_leaves_index_null_witness :
    (initializeContext exampleInitEnv { exampleOptions with indexDir := "-" } emptyGlobals
        exampleContext).loadCalls = [] ∧
    (initializeContext exampleInitEnv { exampleOptions with indexDir := "-" } emptyGlobals
        exampleContext).ctx.index = none ∧
    (initializeContext exampleInitEnv { exampleOptions with indexDir := "-" } emptyGlobals
        exampleContext).seedLengthChecked = false :=
  ⟨(c12_dash_leaves_index_null exampleInitEnv { exampleOptions with indexDir := "-" }
      emptyGlobals exampleContext rfl).1,
   (c12_dash_leaves_index_null exampleInitEnv { exampleOptions with indexDir := "-" }
      emptyGlobals exampleContext rfl).2 rfl (fun _ => rfl)⟩

/-! ## Further theorems about `SeparatePairedEndAligner::align` -/

/-- Shared: outside the both-too-short early return, a mate is passed to the
single-end aligner exactly when its data length is greater than
`minReadLength`; in the early return no mate is passed. -/
theorem align_tried_aligning_iff {σ : Type} (sa : SingleAligner σ)
    (minReadLength InvalidGenomeLocation : Nat) (aligner0 : σ) (read0 read1 : Read)
    (result0 : PairedAlignmentResult) (maxEdit size : Int) (r : Nat) (hr : r < 2) :
    (align sa minReadLength InvalidGenomeLocation aligner0 read0 read1 result0 maxEdit
        size).tried_aligning r = true ↔
      (¬ (read0.dataLength < minReadLength ∧ read1.dataLength < minReadLength) ∧
        minReadLength < (mateRead read0 read1 r).dataLength) := by
  have hr01 : r = 0 ∨ r = 1 := by omega
  have h10 : ¬ ((1 : Nat) = 0) := by decide
  by_cases hs : read0.dataLength < minReadLength ∧ read1.dataLength < minReadLength
  · rcases hr01 with rfl | rfl <;>
      simp [align, hs, AlignState.tried_aligning]
  · rcases hr01 with rfl | rfl <;>
      by_cases h0 : read0.dataLength ≤ minReadLength <;>
      by_cases h1 : read1.dataLength ≤ minReadLength <;>
      simp only [align, alignMate, if_neg hs, h0, h1, h10, if_true, if_false,
        AlignState.tried_aligning, mateRead] <;>
      simp_all

/-- C13, evaluated at the failing input (first mate of exactly `minReadLength = 20`
bases, second mate of 100 bases): the pair is not rejected by the early
return and the first mate's length is not less than `minReadLength`, yet the
first mate is not passed to the single-end aligner and is marked `NotFound`;
only the second mate is aligned. -/
theorem c13_mate_of_exactly_min_length_not_aligned :
    ¬ ((⟨20⟩ : Read).dataLength < 20 ∧ (⟨100⟩ : Read).dataLength < 20) ∧
    (mateRead ⟨20⟩ ⟨100⟩ 0).dataLength ≥ 20 ∧
    (align exampleAligner 20 exampleInvalidGenomeLocation 0 ⟨20⟩ ⟨100⟩ exampleResult 0
        8).tried_aligning 0 = false ∧
    (align exampleAligner 20 exampleInvalidGenomeLocation 0 ⟨20⟩ ⟨100⟩ exampleResult 0
        8).callFor 0 = none ∧
    ((align exampleAligner 20 exampleInvalidGenomeLocation 0 ⟨20⟩ ⟨100⟩ exampleResult 0
        8).result.slot 0).status = .NotFound ∧
    (align exampleAligner 20 exampleInvalidGenomeLocation 0 ⟨20⟩ ⟨100⟩ exampleResult 0
        8).calls = [{ mate := 1, capacity := 8, offset := 0, count := 1 }] := by
  decide

/-- C14: the `alignedAsPair` flag written by `align` depends only on the read
lengths: it is `false` if and only if both reads have data length less than
`minReadLength`, and `true` in every other case, whatever the statuses of the
mates (including `NotFound` for one or both). -/
theorem c14_alignedAsPair_iff_not_both_short {σ : Type} (sa : SingleAligner σ)
    (minReadLength InvalidGenomeLocation : Nat) (aligner0 : σ) (read0 read1 : Read)
    (result0 : PairedAlignmentResult) (maxEdit size : Int) :
    ((align sa minReadLength InvalidGenomeLocation aligner0 read0 read1 result0 maxEdit
        size).result.alignedAsPair = false ↔
      (read0.dataLength < minReadLength ∧ read1.dataLength < minReadLength)) ∧
    ((align sa minReadLength InvalidGenomeLocation aligner0 read0 read1 result0 maxEdit
        size).result.alignedAsPair = true ↔
      ¬ (read0.dataLength < minReadLength ∧ read1.dataLength < minReadLength)) := by
  by_cases hs : read0.dataLength < minReadLength ∧ read1.dataLength < minReadLength
  · simp [align, hs, tooShortResult]
  · simp only [align, if_neg hs, setPairFlags]
    split_ifs <;> simp [hs]

end SNAP
